import Mathlib

/-!
Verification of the WHOOP token-and-sync subsystem and the
aggregation/formatting logic of the slackbot repository.

The Go code is shallowly embedded:
* the SQLite store is modelled as in-memory lists of rows; the SQL
  `INSERT OR REPLACE` upserts keyed by a UNIQUE column become
  filter-then-append operations, and store reads are infallible
  (driver-level errors are environment failures, not program logic);
* `time.Time` values become `Int` timestamps in seconds and
  `time.Hour` becomes `3600`;
* Go `float64` arithmetic is modelled with `ℚ`; the conversion
  `int(x)` (truncation toward zero) becomes `goTrunc`;
* the WHOOP provider (token refresh, recovery fetch, sleep fetch) is an
  oracle `Env` mapping tokens to optional responses, `none` meaning the
  HTTP call failed; `crypto/rand` bytes are an explicit parameter;
* functions are instrumented with a count of provider refresh calls and,
  for the all-users fan-out, the list of user ids handed to
  `syncUserData`, so that call-count properties are statable.
-/

attribute [local semireducible] Rat.mul Rat.inv Rat.add Rat.sub Rat.ofScientific

/-- Go `int(x)` on a `float64`: truncation toward zero. -/
def goTrunc (q : ℚ) : Int :=
  if 0 ≤ q then ⌊q⌋ else ⌈q⌉

/-- One second resolution; `time.Hour`. -/
def hourSec : Int := 3600

/-- models.WHOOPConnection (part_001): one row of `whoop_connections`. -/
structure Connection where
  userID : String
  whoopUserID : String
  accessToken : String
  refreshToken : String
  expiresAt : Int
  connectedAt : Int
  active : Bool
deriving DecidableEq

/-- client.go TokenResponse (the fields the service consumes). -/
structure TokenResponse where
  accessToken : String
  refreshToken : String
  expiresIn : Int
deriving DecidableEq

/-- client.go RecoveryData, flattened to the fields the sync reads. -/
structure RawRecovery where
  userID : Int := 0
  createdAt : Int := 0
  recoveryScore : ℚ := 0
  hrvRmssd : ℚ := 0
  restingHR : ℚ := 0
deriving DecidableEq

/-- client.go SleepData.Score.Stage_summary. -/
structure RawStageSummary where
  totalInBedTimeMS : Int := 0
  totalAwakeTimeMS : Int := 0
  totalNoDataTimeMS : Int := 0
  totalLightSleepMS : Int := 0
  totalSlowWaveSleepMS : Int := 0
  totalRemSleepMS : Int := 0
deriving DecidableEq

/-- client.go SleepData.Score. -/
structure RawSleepScore where
  stageSummary : RawStageSummary := {}
  sleepEfficiencyPercentage : ℚ := 0
  sleepScore : Int := 0
deriving DecidableEq

/-- client.go SleepData, flattened to the fields the sync reads. -/
structure RawSleep where
  userID : Int := 0
  endTime : Int := 0
  score : RawSleepScore := {}
deriving DecidableEq

/-- models.WHOOPRecovery: one row of `whoop_recovery`. -/
structure WHOOPRecovery where
  userID : String
  whoopUserID : String
  date : Int
  score : Int
  hrv : ℚ
  rhr : Int
  createdAt : Int
deriving DecidableEq

/-- models.WHOOPSleep: one row of `whoop_sleep`. -/
structure WHOOPSleep where
  userID : String
  whoopUserID : String
  date : Int
  durationMS : Int
  efficiency : ℚ
  score : Int
  stagesDeepMS : Int
  stagesREMS : Int
  stagesLightMS : Int
  stagesWakeMS : Int
  createdAt : Int
deriving DecidableEq

/-- The record store: the three tables the sync subsystem touches. -/
structure DB where
  connections : List Connection
  recovery : List WHOOPRecovery
  sleep : List WHOOPSleep
deriving DecidableEq

/-- The provider oracle plus the clock: `none` models a failed HTTP call. -/
structure Env where
  now : Int
  refreshResp : String → Option TokenResponse
  recoveryResp : String → Option (List RawRecovery)
  sleepResp : String → Option (List RawSleep)

/-- Error kinds surfaced by the sync paths (spec section 7). -/
inductive SyncError
  | noConnection
  | tokenRefreshFailed
deriving DecidableEq

/-- database.UpsertWHOOPConnection: `INSERT OR REPLACE` on UNIQUE(user_id). -/
def upsertWHOOPConnection (tbl : List Connection) (c : Connection) : List Connection :=
  tbl.filter (fun r => r.userID ≠ c.userID) ++ [c]

/-- database.GetWHOOPConnection: `WHERE user_id = ? AND active = 1`. -/
def getWHOOPConnection (tbl : List Connection) (uid : String) : Option Connection :=
  tbl.find? (fun r => r.userID == uid && r.active)

/-- database.DeactivateWHOOPConnection: `UPDATE ... SET active = 0 WHERE user_id = ?`. -/
def deactivateWHOOPConnection (tbl : List Connection) (uid : String) : List Connection :=
  tbl.map (fun r => if r.userID = uid then { r with active := false } else r)

/-- database.GetAllActiveWHOOPConnections: `WHERE active = 1`. -/
def getAllActiveWHOOPConnections (tbl : List Connection) : List Connection :=
  tbl.filter (fun r => r.active)

/-- database.UpsertWHOOPRecovery: `INSERT OR REPLACE` on UNIQUE(user_id, date). -/
def upsertWHOOPRecovery (tbl : List WHOOPRecovery) (r : WHOOPRecovery) : List WHOOPRecovery :=
  tbl.filter (fun x => ¬(x.userID = r.userID ∧ x.date = r.date)) ++ [r]

/-- database.UpsertWHOOPSleep: `INSERT OR REPLACE` on UNIQUE(user_id, date). -/
def upsertWHOOPSleep (tbl : List WHOOPSleep) (s : WHOOPSleep) : List WHOOPSleep :=
  tbl.filter (fun x => ¬(x.userID = s.userID ∧ x.date = s.date)) ++ [s]

/-- `Truncate(24 * time.Hour)` on a timestamp: floor to the day boundary. -/
def truncDay (t : Int) : Int :=
  86400 * (t / 86400)

/-- service.go RefreshTokenIfNeeded. The third component counts calls to the
provider refresh endpoint. Refresh happens only when the expiry is within one
hour of now; on provider failure the connection is deactivated before the
error is returned; on success the rewritten connection is upserted. -/
def refreshTokenIfNeeded (env : Env) (db : DB) (conn : Connection) :
    DB × Except SyncError Connection × Nat :=
  if conn.expiresAt - env.now > hourSec then
    (db, Except.ok conn, 0)
  else
    match env.refreshResp conn.refreshToken with
    | none =>
        ({ db with connections := deactivateWHOOPConnection db.connections conn.userID },
         Except.error SyncError.tokenRefreshFailed, 1)
    | some tr =>
        let conn2 := { conn with
          accessToken := tr.accessToken
          refreshToken := tr.refreshToken
          expiresAt := env.now + tr.expiresIn }
        ({ db with connections := upsertWHOOPConnection db.connections conn2 },
         Except.ok conn2, 1)

/-- The WHOOPRecovery row built in the loop of service.go syncRecoveryData. -/
def mkRecoveryModel (now : Int) (uid : String) (r : RawRecovery) : WHOOPRecovery :=
  { userID := uid
    whoopUserID := toString r.userID
    date := truncDay r.createdAt
    score := goTrunc r.recoveryScore
    hrv := r.hrvRmssd
    rhr := goTrunc r.restingHR
    createdAt := now }

/-- The WHOOPSleep row built in the loop of service.go syncSleepData,
including the sleep-score fallback estimate. -/
def mkSleepModel (now : Int) (uid : String) (s : RawSleep) : WHOOPSleep :=
  let sleepDate := truncDay s.endTime
  let totalSleepMS := s.score.stageSummary.totalLightSleepMS +
                      s.score.stageSummary.totalSlowWaveSleepMS +
                      s.score.stageSummary.totalRemSleepMS
  let sleepScore :=
    if s.score.sleepScore = 0 ∧ s.score.sleepEfficiencyPercentage > 0 then
      let efficiencyFactor := s.score.sleepEfficiencyPercentage / 100
      let durationHours : ℚ := (totalSleepMS : ℚ) / (1000 * 60 * 60)
      if durationHours ≥ 7.5 ∧ efficiencyFactor ≥ 0.85 then
        goTrunc (75 + (efficiencyFactor - 0.85) * 100)
      else if durationHours ≥ 6.5 ∧ efficiencyFactor ≥ 0.75 then
        goTrunc (60 + (efficiencyFactor - 0.75) * 150)
      else
        goTrunc (efficiencyFactor * 60)
    else s.score.sleepScore
  { userID := uid
    whoopUserID := toString s.userID
    date := sleepDate
    durationMS := totalSleepMS
    efficiency := s.score.sleepEfficiencyPercentage
    score := sleepScore
    stagesDeepMS := s.score.stageSummary.totalSlowWaveSleepMS
    stagesREMS := s.score.stageSummary.totalRemSleepMS
    stagesLightMS := s.score.stageSummary.totalLightSleepMS
    stagesWakeMS := s.score.stageSummary.totalAwakeTimeMS
    createdAt := now }

/-- service.go syncRecoveryData: fetch, then upsert each record; a fetch
failure is reported to the caller (who only logs it). -/
def syncRecoveryData (env : Env) (db : DB) (conn : Connection) : DB × Except Unit Unit :=
  match env.recoveryResp conn.accessToken with
  | none => (db, Except.error ())
  | some records =>
      (records.foldl
        (fun d r => { d with recovery := upsertWHOOPRecovery d.recovery (mkRecoveryModel env.now conn.userID r) })
        db,
       Except.ok ())

/-- service.go syncSleepData: fetch, then upsert each record; a fetch
failure is reported to the caller (who only logs it). -/
def syncSleepData (env : Env) (db : DB) (conn : Connection) : DB × Except Unit Unit :=
  match env.sleepResp conn.accessToken with
  | none => (db, Except.error ())
  | some records =>
      (records.foldl
        (fun d s => { d with sleep := upsertWHOOPSleep d.sleep (mkSleepModel env.now conn.userID s) })
        db,
       Except.ok ())

/-- service.go SyncUserData. The third component counts provider refresh
calls made underneath. Connection-load and refresh failures propagate;
per-metric fetch failures are dropped (logged in the source). -/
def syncUserData (env : Env) (db : DB) (uid : String) :
    DB × Except SyncError Unit × Nat :=
  match getWHOOPConnection db.connections uid with
  | none => (db, Except.error SyncError.noConnection, 0)
  | some conn =>
      match refreshTokenIfNeeded env db conn with
      | (db2, Except.error _, k) => (db2, Except.error SyncError.tokenRefreshFailed, k)
      | (db2, Except.ok conn2, k) =>
          let db3 := (syncRecoveryData env db2 conn2).1
          let db4 := (syncSleepData env db3 conn2).1
          (db4, Except.ok (), k)

/-- The loop body of service.go SyncAllUsersData: sync one user, remember
the attempt, drop the per-user error. -/
def syncAllStep (env : Env) (acc : DB × List String) (c : Connection) : DB × List String :=
  ((syncUserData env acc.1 c.userID).1, acc.2 ++ [c.userID])

/-- service.go SyncAllUsersData. The third component is the list of user ids
handed to `syncUserData`, in order. Individual failures are logged only. -/
def syncAllUsersData (env : Env) (db : DB) :
    DB × Except SyncError Unit × List String :=
  let conns := getAllActiveWHOOPConnections db.connections
  let out := conns.foldl (syncAllStep env) (db, [])
  (out.1, Except.ok (), out.2)

/-- Lowercase hex digit, as in encoding/hex. -/
def hexDigit (n : Nat) : Char :=
  if n < 10 then Char.ofNat (48 + n) else Char.ofNat (87 + n)

/-- Two lowercase hex digits for one byte, as in encoding/hex; the input is
reduced mod 256 first because Go bytes are uint8. -/
def hexEncodeByte (b : Nat) : List Char :=
  [hexDigit (b % 256 / 16), hexDigit (b % 256 % 16)]

/-- hex.EncodeToString over a byte slice. -/
def hexEncodeToString (bs : List Nat) : String :=
  String.mk ((bs.map hexEncodeByte).flatten)

/-- service.go GenerateState: hex encoding of 16 `crypto/rand` bytes,
the bytes made an explicit parameter. -/
def generateState (bytes : List Nat) : String :=
  hexEncodeToString bytes

/-- The state built by service.go GetAuthURL:
`fmt.Sprintf("%s:%s", userID, s.GenerateState())`. -/
def authState (userID : String) (bytes : List Nat) : String :=
  userID ++ ":" ++ generateState bytes

/-- The characters strictly before the first colon, `none` when the string
has no colon; mirrors the index loop in service.go HandleOAuthCallback. -/
def beforeFirstColon : List Char → Option (List Char)
  | [] => none
  | c :: cs => if c = ':' then some [] else (beforeFirstColon cs).map (fun l => c :: l)

/-- The `userID` variable after the loop in HandleOAuthCallback: the prefix
before the first colon, or the empty string when no colon was found. -/
def stateUserID (state : String) : String :=
  match beforeFirstColon state.data with
  | some cs => String.mk cs
  | none => ""

/-- Go `len` on a string: UTF-8 byte count. -/
def charUtf8Size (c : Char) : Nat :=
  if c.toNat < 128 then 1
  else if c.toNat < 2048 then 2
  else if c.toNat < 65536 then 3
  else 4

/-- Byte length of a string, as Go `len(state)` computes it. -/
def goStrLen (s : String) : Nat :=
  (s.data.map charUtf8Size).sum

/-- The state-parsing prefix of service.go HandleOAuthCallback (lines 44-57):
reject states shorter than 10 bytes, then recover the user id from the
prefix before the first colon, rejecting an empty prefix. -/
def parseOAuthState (state : String) : Except String String :=
  if goStrLen state < 10 then Except.error "invalid state parameter"
  else
    let userID := stateUserID state
    if userID = "" then Except.error "invalid state format"
    else Except.ok userID

/-- Round half to even, Go fmt `%.0f` on an exact value. -/
def roundHalfEven (q : ℚ) : Int :=
  let f := ⌊q⌋
  if q - f < 1 / 2 then f
  else if q - f > 1 / 2 then f + 1
  else if f % 2 = 0 then f else f + 1

/-- Go fmt `%.0f`. -/
def fmtF0 (q : ℚ) : String :=
  toString (roundHalfEven q)

/-- Go fmt `%.1f` (for the nonnegative values the formatter prints). -/
def fmtF1 (q : ℚ) : String :=
  let n := roundHalfEven (q * 10)
  toString (n / 10) ++ "." ++ toString ((n % 10).natAbs)

/-- One row of database.GetTeamWHOOPDataForStandup: the left join makes every
metric column optional; formatter.go reads it as a dynamically-keyed map, a
missing key modelled as `none`. -/
structure Row where
  userID : String := ""
  username : String := ""
  realName : String := ""
  recoveryScore : Option Int := none
  hrv : Option Int := none
  rhr : Option Int := none
  recoveryDate : Option String := none
  sleepScore : Option Int := none
  durationMS : Option Int := none
  efficiency : Option ℚ := none
  sleepDate : Option String := none
  strainScore : Option ℚ := none
  strainDate : Option String := none
deriving DecidableEq

/-- formatter TeamSummary. -/
structure TeamSummary where
  avgRecovery : String
  avgSleep : String
  totalSleep : String
  emoji : String
  recoveryNum : ℚ
  sleepNum : ℚ
deriving DecidableEq

/-- formatter getRecoveryEmoji. -/
def getRecoveryEmoji (score : Int) : String :=
  if score ≥ 75 then "🟢"
  else if score ≥ 50 then "🟡"
  else if score ≥ 25 then "🟠"
  else "🔴"

/-- formatter getSleepEmoji. -/
def getSleepEmoji (score : Int) : String :=
  if score ≥ 80 then "😴"
  else if score ≥ 60 then "😊"
  else if score ≥ 40 then "😐"
  else "😵"

/-- formatter getTeamMoodEmoji. -/
def getTeamMoodEmoji (avgRecovery avgSleep : ℚ) : String :=
  let avgScore := (avgRecovery + avgSleep) / 2
  if avgScore ≥ 75 then "🔥 Team is ON FIRE!"
  else if avgScore ≥ 60 then "💪 Team is feeling strong!"
  else if avgScore ≥ 45 then "⚡ Team is ready to go!"
  else if avgScore ≥ 30 then "☕ Team needs more coffee..."
  else "🆘 Team needs extra care today!"

/-- formatter formatScore: `%.0f%%`, but 0 prints as "N/A". -/
def formatScore (score : ℚ) : String :=
  if score = 0 then "N/A"
  else fmtF0 score ++ "%"

/-- The single range loop of calculateTeamSummary: append the present
recovery score, the present sleep score, and the present duration in hours
to the three accumulators. -/
def summaryStep (acc : List ℚ × List ℚ × ℚ) (r : Row) : List ℚ × List ℚ × ℚ :=
  let recs := match r.recoveryScore with
    | some s => acc.1 ++ [(s : ℚ)]
    | none => acc.1
  let sleeps := match r.sleepScore with
    | some s => acc.2.1 ++ [(s : ℚ)]
    | none => acc.2.1
  let tot := match r.durationMS with
    | some d => acc.2.2 + (d : ℚ) / (1000 * 60 * 60)
    | none => acc.2.2
  (recs, sleeps, tot)

/-- formatter calculateTeamSummary: collect present metrics, then average
each list only when it is nonempty, defaulting the average to 0. -/
def calculateTeamSummary (teamData : List Row) : TeamSummary :=
  let acc := teamData.foldl summaryStep ([], [], 0)
  let recoveryScores := acc.1
  let sleepScores := acc.2.1
  let totalSleepHours := acc.2.2
  let avgRecovery : ℚ :=
    if recoveryScores.length > 0 then recoveryScores.sum / recoveryScores.length else 0
  let avgSleep : ℚ :=
    if sleepScores.length > 0 then sleepScores.sum / sleepScores.length else 0
  { avgRecovery := formatScore avgRecovery
    avgSleep := formatScore avgSleep
    totalSleep := fmtF1 totalSleepHours ++ "h total"
    emoji := getTeamMoodEmoji avgRecovery avgSleep
    recoveryNum := avgRecovery
    sleepNum := avgSleep }

/-- formatter formatUserData: per-user line with the recovery clause, the
sleep clause, or a placeholder when neither metric is present. -/
def formatUserData (r : Row) : String :=
  let displayName := if r.realName = "" then r.username else r.realName
  let recoveryParts : List String :=
    match r.recoveryScore with
    | some score =>
        let hrv := r.hrv.getD 0
        let rhr := r.rhr.getD 0
        let base := "Recovery: " ++ getRecoveryEmoji score ++ " " ++ toString score ++ "%"
        let text := if hrv > 0 ∧ rhr > 0 then
            base ++ " (HRV: " ++ fmtF1 (hrv : ℚ) ++ "ms, RHR: " ++ toString rhr ++ "bpm)"
          else base
        [text]
    | none => []
  let sleepParts : List String :=
    match r.sleepScore with
    | some score =>
        let durationMS := r.durationMS.getD 0
        let efficiency := r.efficiency.getD 0
        let sleepHours : ℚ := (durationMS : ℚ) / (1000 * 60 * 60)
        let base := "Sleep: " ++ getSleepEmoji score ++ " " ++ toString score ++ "% (" ++ fmtF1 sleepHours ++ "h"
        let text := (if efficiency > 0 then base ++ ", " ++ fmtF0 efficiency ++ "% eff" else base) ++ ")"
        [text]
    | none => []
  let parts := recoveryParts ++ sleepParts
  let parts := if parts = [] then ["No recent data 📊"] else parts
  "• **" ++ displayName ++ ":** " ++ String.intercalate " • " parts

/-- Go time.Weekday, the only input of the footer besides the summary. -/
inductive Weekday
  | monday | tuesday | wednesday | thursday | friday | saturday | sunday
deriving DecidableEq

/-- formatter generateMotivationalFooter. -/
def generateMotivationalFooter (weekday : Weekday) (summary : TeamSummary) : String :=
  let dayMessage := match weekday with
    | Weekday.monday => "Let\x27s crush this Monday! 💪"
    | Weekday.tuesday => "Tuesday momentum building! 🚀"
    | Weekday.wednesday => "Hump day hustle! 🐪"
    | Weekday.thursday => "Thursday thunder! ⚡"
    | Weekday.friday => "Friday finisher! 🎉"
    | Weekday.saturday => "Saturday vibes! 🌟"
    | Weekday.sunday => "Sunday reset! 🧘"
  let performanceMsg :=
    if summary.recoveryNum ≥ 70 then "The team is well-recovered and ready for anything!"
    else if summary.recoveryNum ≥ 50 then "Good recovery levels - steady as she goes!"
    else if summary.recoveryNum > 0 then "Take it easy today and focus on recovery!"
    else ""
  "🌟 " ++ dayMessage ++ " " ++ performanceMsg ++
    "\n\n_💡 Pro tip: Use `/whoop-status` to check individual stats or `/morning-report` for a fresh update!_"

/-- formatter FormatMorningStandup: a fixed connect-your-account message for
an empty row set, otherwise header, team overview, per-user lines and the
motivational footer. The wall-clock weekday is an explicit parameter. -/
def formatMorningStandup (weekday : Weekday) (teamData : List Row) : String :=
  if teamData.length = 0 then
    "🌅 *Good Morning Team!* 🌅\n\nNo WHOOP data available yet. Connect your WHOOP accounts with `/connect-whoop` to see your daily stats! 🚀"
  else
    let teamSummary := calculateTeamSummary teamData
    let header := "🌅 *Good Morning Team! Here\x27s how everyone\x27s feeling today:* 🌅\n\n"
    let overview :=
      "📊 *Team Overview:* " ++ teamSummary.emoji ++ "\n" ++
      "• Average Recovery: " ++ teamSummary.avgRecovery ++ "\n" ++
      "• Average Sleep Score: " ++ teamSummary.avgSleep ++ "\n" ++
      "• Team Sleep Hours: " ++ teamSummary.totalSleep ++ "\n\n"
    let individual :=
      "👥 *Individual Stats:*\n" ++
      String.join (teamData.map (fun u => formatUserData u ++ "\n"))
    let footer := generateMotivationalFooter weekday teamSummary
    header ++ overview ++ individual ++ "\n" ++ footer

/-- Bool test: `p` is a prefix of `l`. -/
def charsLead : List Char → List Char → Bool
  | [], _ => true
  | _ :: _, [] => false
  | a :: as, b :: bs => a == b && charsLead as bs

/-- Bool test: `p` occurs as a contiguous run inside `l`. -/
def charsOccur (p : List Char) : List Char → Bool
  | [] => List.isEmpty p
  | b :: bs => charsLead p (b :: bs) || charsOccur p bs

/-- Bool test: `pat` occurs as a substring of `s`. -/
def hasSubstr (s pat : String) : Bool :=
  charsOccur pat.data s.data

/-- The table mutations the repository performs on `whoop_connections`:
HandleOAuthCallback and a successful RefreshTokenIfNeeded upsert a row;
a failed RefreshTokenIfNeeded and DisconnectUser deactivate by user id. -/
inductive ConnectionOp
  | oauthCallback (c : Connection)
  | refreshUpsert (c : Connection)
  | refreshFailure (uid : String)
  | disconnect (uid : String)

/-- Apply one connection-table operation. -/
def applyConnectionOp (tbl : List Connection) : ConnectionOp → List Connection
  | ConnectionOp.oauthCallback c => upsertWHOOPConnection tbl c
  | ConnectionOp.refreshUpsert c => upsertWHOOPConnection tbl c
  | ConnectionOp.refreshFailure uid => deactivateWHOOPConnection tbl uid
  | ConnectionOp.disconnect uid => deactivateWHOOPConnection tbl uid

/-- Apply a sequence of connection-table operations, oldest first. -/
def applyConnectionOps (tbl : List Connection) (ops : List ConnectionOp) : List Connection :=
  ops.foldl applyConnectionOp tbl

/-- The rows of the connection table that are active for a given user. -/
def activeRowsFor (tbl : List Connection) (uid : String) : List Connection :=
  tbl.filter (fun r => r.userID == uid && r.active)

/-! ## Helper lemmas about the store operations -/

theorem deactivate_pred_false (tbl : List Connection) (uid : String) :
    ∀ r ∈ deactivateWHOOPConnection tbl uid, (r.userID == uid && r.active) = false := by
  intro r hr
  rw [deactivateWHOOPConnection, List.mem_map] at hr
  obtain ⟨x, hx, rfl⟩ := hr
  by_cases h : x.userID = uid
  · simp [h]
  · simp [h]

theorem getWHOOPConnection_deactivate (tbl : List Connection) (uid : String) :
    getWHOOPConnection (deactivateWHOOPConnection tbl uid) uid = none := by
  rw [getWHOOPConnection, List.find?_eq_none]
  intro r hr
  simp [deactivate_pred_false tbl uid r hr]

theorem activeRowsFor_deactivate (tbl : List Connection) (uid : String) :
    activeRowsFor (deactivateWHOOPConnection tbl uid) uid = [] := by
  rw [activeRowsFor, List.filter_eq_nil_iff]
  intro r hr
  simp [deactivate_pred_false tbl uid r hr]

theorem syncAll_foldl_log (env : Env) (conns : List Connection) (db : DB) (log : List String) :
    (conns.foldl (syncAllStep env) (db, log)).2 = log ++ conns.map (fun c => c.userID) := by
  induction conns generalizing db log with
  | nil => simp
  | cons c cs ih =>
      simp only [List.foldl_cons, syncAllStep]
      rw [ih]
      simp

/-! ## Claims C1, C2, C3 -/

/-- Claim C1: when the expiry is within one hour of now and the provider
refresh call fails, RefreshTokenIfNeeded deactivates the connection and
propagates the error, and a subsequent SyncUserData for that user — under any
later environment — returns NoConnection without calling refresh again. -/
theorem refresh_failure_deactivates_and_blocks_sync
    (env env2 : Env) (db : DB) (conn : Connection)
    (hexp : conn.expiresAt - env.now ≤ hourSec)
    (hfail : env.refreshResp conn.refreshToken = none) :
    (refreshTokenIfNeeded env db conn).2.1 = Except.error SyncError.tokenRefreshFailed ∧
    activeRowsFor (refreshTokenIfNeeded env db conn).1.connections conn.userID = [] ∧
    getWHOOPConnection (refreshTokenIfNeeded env db conn).1.connections conn.userID = none ∧
    syncUserData env2 (refreshTokenIfNeeded env db conn).1 conn.userID =
      ((refreshTokenIfNeeded env db conn).1, Except.error SyncError.noConnection, 0) := by
  have hout : refreshTokenIfNeeded env db conn =
      ({ db with connections := deactivateWHOOPConnection db.connections conn.userID },
       Except.error SyncError.tokenRefreshFailed, 1) := by
    unfold refreshTokenIfNeeded
    rw [if_neg (not_lt.mpr hexp), hfail]
  rw [hout]
  refine ⟨rfl, activeRowsFor_deactivate _ _, getWHOOPConnection_deactivate _ _, ?_⟩
  simp only [syncUserData, getWHOOPConnection_deactivate]

/-- Claim C2: SyncAllUsersData returns no error, and the user ids handed to
SyncUserData are exactly the active connections, in order, one sync attempt
per active connection regardless of individual failures. -/
theorem syncAllUsersData_best_effort (env : Env) (db : DB) :
    (syncAllUsersData env db).2.1 = Except.ok () ∧
    (syncAllUsersData env db).2.2 =
      (getAllActiveWHOOPConnections db.connections).map (fun c => c.userID) := by
  refine ⟨rfl, ?_⟩
  simp only [syncAllUsersData]
  rw [syncAll_foldl_log]
  simp

/-- Claim C3: with a successful refresh response available, RefreshTokenIfNeeded
calls the provider refresh endpoint exactly once when the expiry is at most one
hour from now, and never calls it — returning the connection and the store
unchanged — when the expiry is more than one hour from now. -/
theorem refreshTokenIfNeeded_call_count
    (env : Env) (db : DB) (conn : Connection) (tr : TokenResponse) :
    (env.refreshResp conn.refreshToken = some tr →
      conn.expiresAt - env.now ≤ hourSec →
      (refreshTokenIfNeeded env db conn).2.2 = 1) ∧
    (conn.expiresAt - env.now > hourSec →
      refreshTokenIfNeeded env db conn = (db, Except.ok conn, 0)) := by
  constructor
  · intro hresp hexp
    simp only [refreshTokenIfNeeded, if_neg (not_lt.mpr hexp), hresp]
  · intro h
    simp only [refreshTokenIfNeeded, if_pos h]

/-- A connection whose token expires 1800 seconds from time 0. -/
def connSoon : Connection :=
  { userID := "U1", whoopUserID := "7", accessToken := "a1", refreshToken := "r1",
    expiresAt := 1800, connectedAt := 0, active := true }

/-- A fresh token the provider could answer with. -/
def trFresh : TokenResponse :=
  { accessToken := "a2", refreshToken := "r2", expiresIn := 7200 }

/-- A provider that always refreshes successfully and returns empty data. -/
def envRefreshOk : Env :=
  { now := 0, refreshResp := fun _ => some trFresh,
    recoveryResp := fun _ => some [], sleepResp := fun _ => some [] }

/-- A provider whose refresh endpoint always fails. -/
def envRefreshFail : Env :=
  { now := 0, refreshResp := fun _ => none,
    recoveryResp := fun _ => some [], sleepResp := fun _ => some [] }

/-- A store holding the one soon-to-expire connection. -/
def dbSoon : DB := { connections := [connSoon], recovery := [], sleep := [] }

/-- Claim C1, witnessed at a concrete store and failing provider. -/
theorem refresh_failure_deactivates_and_blocks_sync_witness :
    connSoon.expiresAt - envRefreshFail.now ≤ hourSec ∧
    envRefreshFail.refreshResp connSoon.refreshToken = none ∧
    syncUserData envRefreshFail (refreshTokenIfNeeded envRefreshFail dbSoon connSoon).1 connSoon.userID =
      ((refreshTokenIfNeeded envRefreshFail dbSoon connSoon).1,
       Except.error SyncError.noConnection, 0) :=
  ⟨by decide, rfl,
   (refresh_failure_deactivates_and_blocks_sync envRefreshFail envRefreshFail dbSoon connSoon
     (by decide) rfl).2.2.2⟩

/-- Claim C3, witnessed at a concrete connection expiring within the hour. -/
theorem refreshTokenIfNeeded_call_count_witness :
    envRefreshOk.refreshResp connSoon.refreshToken = some trFresh ∧
    connSoon.expiresAt - envRefreshOk.now ≤ hourSec ∧
    (refreshTokenIfNeeded envRefreshOk dbSoon connSoon).2.2 = 1 :=
  ⟨rfl, by decide,
   (refreshTokenIfNeeded_call_count envRefreshOk dbSoon connSoon trFresh).1 rfl (by decide)⟩

/-! ## Helper lemmas about the formatter -/

/-- The recovery scores of the rows that carry one. -/
def presentRecoveries (rows : List Row) : List Int :=
  rows.filterMap (fun r => r.recoveryScore)

/-- The sleep scores of the rows that carry one. -/
def presentSleepScores (rows : List Row) : List Int :=
  rows.filterMap (fun r => r.sleepScore)

/-- The sleep durations of the rows that carry one. -/
def presentDurations (rows : List Row) : List Int :=
  rows.filterMap (fun r => r.durationMS)

/-- Cast a list of integers into the rationals, element by element. -/
def qlist (l : List Int) : List ℚ :=
  l.map (fun s : Int => (s : ℚ))

theorem summary_foldl (rows : List Row) (l1 l2 : List ℚ) (q : ℚ) :
    rows.foldl summaryStep (l1, l2, q) =
      (l1 ++ qlist (presentRecoveries rows),
       l2 ++ qlist (presentSleepScores rows),
       q + (qlist (presentDurations rows)).sum / (1000 * 60 * 60)) := by
  induction rows generalizing l1 l2 q with
  | nil => simp [presentRecoveries, presentSleepScores, presentDurations, qlist]
  | cons r rs ih =>
      rcases hrec : r.recoveryScore with _ | s1 <;>
        rcases hsl : r.sleepScore with _ | s2 <;>
          rcases hd : r.durationMS with _ | d <;>
            simp [summaryStep, hrec, hsl, hd, ih, presentRecoveries, presentSleepScores,
              presentDurations, qlist, List.filterMap_cons, List.append_assoc, add_assoc, add_div]

theorem sum_map_div (l : List ℚ) (c : ℚ) :
    (l.map (fun x => x / c)).sum = l.sum / c := by
  induction l with
  | nil => simp
  | cons x xs ih => simp [ih, add_div]

/-! ## Claims C5, C7 -/

/-- A row carrying recovery 80 and sleep 90. -/
def rowR80S90 : Row := { recoveryScore := some 80, sleepScore := some 90 }

/-- A row carrying recovery 60 and no sleep metric. -/
def rowR60 : Row := { recoveryScore := some 60 }

/-- Claim C5: the team averages are taken only over rows that carry the
metric — a missing metric is excluded from numerator and denominator alike —
total sleep hours sums duration-in-ms over 3.6e6 across rows with a duration
present, and the spec example [recovery 80 + sleep 90, recovery 60] averages
to recovery 70 and sleep 90. -/
theorem calculateTeamSummary_present_only :
    (∀ rows : List Row,
      (calculateTeamSummary rows).recoveryNum =
        (if (presentRecoveries rows).length > 0 then
          (qlist (presentRecoveries rows)).sum / (presentRecoveries rows).length
         else 0) ∧
      (calculateTeamSummary rows).sleepNum =
        (if (presentSleepScores rows).length > 0 then
          (qlist (presentSleepScores rows)).sum / (presentSleepScores rows).length
         else 0) ∧
      (calculateTeamSummary rows).totalSleep =
        fmtF1 ((qlist (presentDurations rows)).sum / (1000 * 60 * 60)) ++ "h total") ∧
    (calculateTeamSummary [rowR80S90, rowR60]).recoveryNum = 70 ∧
    (calculateTeamSummary [rowR80S90, rowR60]).sleepNum = 90 := by
  refine ⟨?_, by decide, by decide⟩
  intro rows
  have h := summary_foldl rows [] [] 0
  refine ⟨?_, ?_, ?_⟩ <;>
    simp only [calculateTeamSummary, h, List.nil_append, zero_add, qlist, List.length_map]

/-- Claim C7: on the empty row list both averages are 0 and format as "N/A",
and the total sleep renders as "0.0h total" — no division by zero occurs. -/
theorem calculateTeamSummary_empty :
    (calculateTeamSummary []).recoveryNum = 0 ∧
    (calculateTeamSummary []).sleepNum = 0 ∧
    (calculateTeamSummary []).avgRecovery = "N/A" ∧
    (calculateTeamSummary []).avgSleep = "N/A" ∧
    (calculateTeamSummary []).totalSleep = "0.0h total" := by decide

/-! ## Claims C10, C8 -/

/-- A row whose only metric is a recovery score of 0. -/
def rowZeroRec : Row := { recoveryScore := some 0 }

/-- Claim C10: formatScore renders 0 as "N/A" unconditionally, so whenever
every present recovery (resp. sleep) score in the row list is 0 the team
average is 0 and is rendered "N/A" — exactly as when no row carries the
metric at all. -/
theorem formatScore_zero_and_allzero_rows (rows : List Row) :
    formatScore 0 = "N/A" ∧
    ((∀ r ∈ rows, r.recoveryScore = none ∨ r.recoveryScore = some 0) →
      (calculateTeamSummary rows).recoveryNum = 0 ∧
      (calculateTeamSummary rows).avgRecovery = "N/A") ∧
    ((∀ r ∈ rows, r.sleepScore = none ∨ r.sleepScore = some 0) →
      (calculateTeamSummary rows).sleepNum = 0 ∧
      (calculateTeamSummary rows).avgSleep = "N/A") := by
  have hfold := summary_foldl rows [] [] 0
  refine ⟨by decide, ?_, ?_⟩
  · intro hall
    have hsum : (qlist (presentRecoveries rows)).sum = 0 := by
      apply List.sum_eq_zero
      intro x hx
      rw [qlist, List.mem_map] at hx
      obtain ⟨s, hs, rfl⟩ := hx
      rw [presentRecoveries, List.mem_filterMap] at hs
      obtain ⟨r, hr, hrs⟩ := hs
      rcases hall r hr with h0 | h0 <;> rw [h0] at hrs
      · simp at hrs
      · rw [Option.some.injEq] at hrs
        subst hrs
        exact Int.cast_zero
    have hnum : (calculateTeamSummary rows).recoveryNum = 0 := by
      simp only [calculateTeamSummary, hfold, List.nil_append, hsum]
      split <;> simp
    refine ⟨hnum, ?_⟩
    have hfmt : (calculateTeamSummary rows).avgRecovery =
        formatScore ((calculateTeamSummary rows).recoveryNum) := rfl
    rw [hfmt, hnum]
    decide
  · intro hall
    have hsum : (qlist (presentSleepScores rows)).sum = 0 := by
      apply List.sum_eq_zero
      intro x hx
      rw [qlist, List.mem_map] at hx
      obtain ⟨s, hs, rfl⟩ := hx
      rw [presentSleepScores, List.mem_filterMap] at hs
      obtain ⟨r, hr, hrs⟩ := hs
      rcases hall r hr with h0 | h0 <;> rw [h0] at hrs
      · simp at hrs
      · rw [Option.some.injEq] at hrs
        subst hrs
        exact Int.cast_zero
    have hnum : (calculateTeamSummary rows).sleepNum = 0 := by
      simp only [calculateTeamSummary, hfold, List.nil_append, hsum]
      split <;> simp
    refine ⟨hnum, ?_⟩
    have hfmt : (calculateTeamSummary rows).avgSleep =
        formatScore ((calculateTeamSummary rows).sleepNum) := rfl
    rw [hfmt, hnum]
    decide

/-- Claim C10, witnessed at a one-row list whose recovery score is 0. -/
theorem formatScore_zero_and_allzero_rows_witness :
    rowZeroRec.recoveryScore = some 0 ∧
    (calculateTeamSummary [rowZeroRec]).avgRecovery = "N/A" ∧
    (calculateTeamSummary [rowZeroRec]).avgSleep = "N/A" :=
  ⟨rfl,
   ((formatScore_zero_and_allzero_rows [rowZeroRec]).2.1 (by decide)).2,
   ((formatScore_zero_and_allzero_rows [rowZeroRec]).2.2 (by decide)).2⟩

set_option maxRecDepth 16384 in
/-- Claim C8: the standup for an empty row list is the fixed connect-your-
account message, while a single row with no metrics present renders the full
standup containing the per-user "No recent data" placeholder — a textually
different message. -/
theorem formatMorningStandup_empty_vs_blank_row (w : Weekday) :
    formatMorningStandup w [] =
      "🌅 *Good Morning Team!* 🌅\n\nNo WHOOP data available yet. Connect your WHOOP accounts with `/connect-whoop` to see your daily stats! 🚀" ∧
    formatMorningStandup w [({} : Row)] ≠ formatMorningStandup w [] ∧
    hasSubstr (formatMorningStandup w [({} : Row)]) "No recent data 📊" = true := by
  cases w <;> exact ⟨rfl, by decide, by decide⟩

/-! ## Claim C4 -/

/-- Claim C4: for a fetched sleep record with provider score 0 and positive
efficiency, syncSleepData stores the row built by mkSleepModel, whose duration
is the sum of the light, slow-wave and REM stage durations and whose score is
the three-branch estimate over duration hours and the efficiency factor. -/
theorem sleep_score_fallback
    (env : Env) (db : DB) (conn : Connection) (s : RawSleep)
    (hresp : env.sleepResp conn.accessToken = some [s])
    (hzero : s.score.sleepScore = 0)
    (heff : s.score.sleepEfficiencyPercentage > 0) :
    (syncSleepData env db conn).1.sleep =
      upsertWHOOPSleep db.sleep (mkSleepModel env.now conn.userID s) ∧
    (mkSleepModel env.now conn.userID s).durationMS =
      s.score.stageSummary.totalLightSleepMS + s.score.stageSummary.totalSlowWaveSleepMS +
        s.score.stageSummary.totalRemSleepMS ∧
    (mkSleepModel env.now conn.userID s).score =
      (let efficiency := s.score.sleepEfficiencyPercentage / 100
       let durationHours : ℚ := ((s.score.stageSummary.totalLightSleepMS +
         s.score.stageSummary.totalSlowWaveSleepMS +
         s.score.stageSummary.totalRemSleepMS : Int) : ℚ) / (1000 * 60 * 60)
       if durationHours ≥ 7.5 ∧ efficiency ≥ 0.85 then
         goTrunc (75 + (efficiency - 0.85) * 100)
       else if durationHours ≥ 6.5 ∧ efficiency ≥ 0.75 then
         goTrunc (60 + (efficiency - 0.75) * 150)
       else
         goTrunc (efficiency * 60)) := by
  refine ⟨?_, rfl, ?_⟩
  · simp only [syncSleepData, hresp, List.foldl_cons, List.foldl_nil]
  · simp only [mkSleepModel]
    rw [if_pos ⟨hzero, heff⟩]

/-- The spec example: 8 hours of staged sleep at 90 percent efficiency with a
provider score of 0. -/
def rawSleep8h90 : RawSleep :=
  { userID := 7, endTime := 0,
    score := { sleepEfficiencyPercentage := 90, sleepScore := 0,
               stageSummary := { totalLightSleepMS := 14400000,
                                 totalSlowWaveSleepMS := 7200000,
                                 totalRemSleepMS := 7200000 } } }

/-- A provider returning the example sleep record. -/
def envSleep8h90 : Env :=
  { now := 0, refreshResp := fun _ => some trFresh,
    recoveryResp := fun _ => some [], sleepResp := fun _ => some [rawSleep8h90] }

/-- The empty store. -/
def dbEmpty : DB := { connections := [], recovery := [], sleep := [] }

/-- Claim C4, witnessed at the spec example, where the estimate is 80. -/
theorem sleep_score_fallback_witness :
    rawSleep8h90.score.sleepScore = 0 ∧
    rawSleep8h90.score.sleepEfficiencyPercentage > 0 ∧
    (mkSleepModel envSleep8h90.now connSoon.userID rawSleep8h90).score = 80 :=
  ⟨rfl, by decide, by
    have h := (sleep_score_fallback envSleep8h90 dbEmpty connSoon rawSleep8h90
      rfl rfl (by decide)).2.2
    rw [h]
    decide⟩

/-! ## Claim C6 -/

theorem hexDigit_ne_colon (n : Nat) (h : n < 16) : hexDigit n ≠ ':' := by
  interval_cases n <;> decide

theorem hexEncode_flatten_length (bs : List Nat) :
    ((bs.map hexEncodeByte).flatten).length = 2 * bs.length := by
  induction bs with
  | nil => simp
  | cons b l ih =>
      simp only [List.map_cons, List.flatten_cons, List.length_append, ih, List.length_cons]
      simp [hexEncodeByte]
      omega

theorem hexEncode_no_colon (bs : List Nat) :
    ':' ∉ (bs.map hexEncodeByte).flatten := by
  intro hmem
  rw [List.mem_flatten] at hmem
  obtain ⟨l, hl, hcl⟩ := hmem
  rw [List.mem_map] at hl
  obtain ⟨b, hb, rfl⟩ := hl
  have h256 : b % 256 < 256 := Nat.mod_lt _ (by norm_num)
  rw [hexEncodeByte] at hcl
  simp only [List.mem_cons, List.not_mem_nil, or_false] at hcl
  rcases hcl with h | h
  · exact hexDigit_ne_colon (b % 256 / 16) (by omega) h.symm
  · exact hexDigit_ne_colon (b % 256 % 16) (by omega) h.symm

theorem charUtf8Size_pos (c : Char) : 1 ≤ charUtf8Size c := by
  rw [charUtf8Size]
  split_ifs <;> omega

theorem goStrLen_ge_data_length (s : String) : s.data.length ≤ goStrLen s := by
  rw [goStrLen]
  induction s.data with
  | nil => simp
  | cons c cs ih =>
      simp only [List.map_cons, List.sum_cons, List.length_cons]
      have := charUtf8Size_pos c
      omega

theorem beforeFirstColon_append (l r : List Char) (h : ':' ∉ l) :
    beforeFirstColon (l ++ ':' :: r) = some l := by
  induction l with
  | nil => simp [beforeFirstColon]
  | cons c cs ih =>
      rw [List.cons_append, beforeFirstColon]
      have hc : c ≠ ':' := fun hc => h (hc ▸ List.mem_cons_self c cs)
      rw [if_neg hc, ih (fun hm => h (List.mem_cons_of_mem c hm))]
      rfl

/-- Claim C6, amended: for a NONEMPTY user id containing no colon, the OAuth
state is the user id, a colon, and the 32-character hex encoding of the 16
random bytes — which never contains a colon — and the callback state parsing
recovers exactly the user id. -/
theorem authState_roundtrip (uid : String) (bytes : List Nat)
    (hne : uid ≠ "") (hnc : ':' ∉ uid.data) (hlen : bytes.length = 16) :
    authState uid bytes = uid ++ ":" ++ hexEncodeToString bytes ∧
    (hexEncodeToString bytes).length = 32 ∧
    ':' ∉ (hexEncodeToString bytes).data ∧
    parseOAuthState (authState uid bytes) = Except.ok uid := by
  have hhex : (hexEncodeToString bytes).data = (bytes.map hexEncodeByte).flatten := rfl
  have hdata : (authState uid bytes).data =
      uid.data ++ ':' :: (hexEncodeToString bytes).data := by
    show (uid ++ ":" ++ hexEncodeToString bytes).data = _
    simp [List.append_assoc]
  have hhexlen : (hexEncodeToString bytes).data.length = 32 := by
    rw [hhex, hexEncode_flatten_length, hlen]
  refine ⟨rfl, hhexlen, by rw [hhex]; exact hexEncode_no_colon bytes, ?_⟩
  have hglen : ¬ (goStrLen (authState uid bytes) < 10) := by
    have h1 := goStrLen_ge_data_length (authState uid bytes)
    rw [hdata, List.length_append, List.length_cons, hhexlen] at h1
    omega
  have hbf : beforeFirstColon (authState uid bytes).data = some uid.data := by
    rw [hdata]
    exact beforeFirstColon_append _ _ hnc
  have huid : stateUserID (authState uid bytes) = uid := by
    rw [stateUserID, hbf]
  rw [parseOAuthState, if_neg hglen]
  simp only [huid]
  rw [if_neg hne]

deriving instance DecidableEq for Except

/-- Claim C6 counterexample: for the colon-free user id "" the claimed
round-trip fails — the callback parser rejects the state built for the empty
user id instead of recovering "". -/
theorem authState_roundtrip_empty_uid_fails :
    parseOAuthState (authState "" (List.replicate 16 0)) =
      Except.error "invalid state format" ∧
    parseOAuthState (authState "" (List.replicate 16 0)) ≠ Except.ok "" := by
  constructor <;> decide

/-- Claim C6, witnessed at user id "U123" and sixteen zero bytes. -/
theorem authState_roundtrip_witness :
    ("U123" : String) ≠ "" ∧
    (List.replicate 16 (0 : Nat)).length = 16 ∧
    parseOAuthState (authState "U123" (List.replicate 16 0)) = Except.ok "U123" :=
  ⟨by decide, by decide,
   (authState_roundtrip "U123" (List.replicate 16 0)
     (by decide) (by decide) (by decide)).2.2.2⟩

/-! ## Claim C9 -/

/-- The connection table has at most one row per user id — the UNIQUE(user_id)
constraint the upsert maintains. -/
def uniqueUserIDs (tbl : List Connection) : Prop :=
  tbl.Pairwise (fun a b => a.userID ≠ b.userID)

theorem upsert_uniqueUserIDs (tbl : List Connection) (c : Connection)
    (h : uniqueUserIDs tbl) : uniqueUserIDs (upsertWHOOPConnection tbl c) := by
  rw [upsertWHOOPConnection, uniqueUserIDs, List.pairwise_append]
  refine ⟨h.sublist (List.filter_sublist tbl), List.pairwise_singleton _ _, ?_⟩
  intro a ha b hb
  rw [List.mem_filter] at ha
  rw [List.mem_singleton] at hb
  subst hb
  simpa using ha.2

theorem deactivate_userID_eq (uid : String) (x : Connection) :
    ((if x.userID = uid then { x with active := false } else x) : Connection).userID =
      x.userID := by
  split <;> rfl

theorem deactivate_uniqueUserIDs (tbl : List Connection) (uid : String)
    (h : uniqueUserIDs tbl) : uniqueUserIDs (deactivateWHOOPConnection tbl uid) := by
  rw [deactivateWHOOPConnection, uniqueUserIDs, List.pairwise_map]
  apply List.Pairwise.imp ?_ h
  intro a b hab
  rw [deactivate_userID_eq, deactivate_userID_eq]
  exact hab

theorem applyConnectionOps_unique (ops : List ConnectionOp) (tbl : List Connection)
    (h : uniqueUserIDs tbl) : uniqueUserIDs (applyConnectionOps tbl ops) := by
  induction ops generalizing tbl with
  | nil => exact h
  | cons op rest ih =>
      apply ih
      cases op with
      | oauthCallback c => exact upsert_uniqueUserIDs _ _ h
      | refreshUpsert c => exact upsert_uniqueUserIDs _ _ h
      | refreshFailure uid => exact deactivate_uniqueUserIDs _ _ h
      | disconnect uid => exact deactivate_uniqueUserIDs _ _ h

theorem length_le_one_of_same_userID (l : List Connection) (uid : String)
    (hpw : l.Pairwise (fun a b => a.userID ≠ b.userID))
    (hall : ∀ a ∈ l, a.userID = uid) : l.length ≤ 1 := by
  cases l with
  | nil => simp
  | cons a t =>
      cases t with
      | nil => simp
      | cons b t2 =>
          exfalso
          rw [List.pairwise_cons] at hpw
          exact hpw.1 b (List.mem_cons_self b t2)
            ((hall a (by simp)).trans (hall b (by simp)).symm)

/-- Claim C9, amended: starting from the empty table, no sequence of the
connection-table operations of the repository (OAuth upsert, refresh upsert,
refresh-failure deactivation, disconnect) ever leaves more than one active
connection for any user id. -/
theorem at_most_one_active_connection (ops : List ConnectionOp) (uid : String) :
    (activeRowsFor (applyConnectionOps [] ops) uid).length ≤ 1 := by
  apply length_le_one_of_same_userID _ uid
  · exact (applyConnectionOps_unique ops [] List.Pairwise.nil).sublist
      (List.filter_sublist _)
  · intro a ha
    rw [activeRowsFor, List.mem_filter] at ha
    have := ha.2
    simp only [Bool.and_eq_true, beq_iff_eq] at this
    exact this.1

/-- The connection created for user "U1" by a completed OAuth callback. -/
def connU1 : Connection :=
  { userID := "U1", whoopUserID := "9", accessToken := "x", refreshToken := "y",
    expiresAt := 100, connectedAt := 0, active := true }

/-- Claim C9 counterexample: after connect followed by disconnect the user has
ZERO active connections, refuting "exactly one Connection with active=true per
internal user id at any time". -/
theorem no_active_connection_after_disconnect :
    activeRowsFor
      (applyConnectionOps []
        [ConnectionOp.oauthCallback connU1, ConnectionOp.disconnect "U1"]) "U1" = [] := by
  decide
